import Mathlib

/-!
Verification development for the EdgeAI webcam YOLO detection application.

The Python sources are shallowly embedded: pure numeric code is translated to
functions over `ℚ` (exact rational arithmetic models the float computations),
stateful loops become explicit state passing or folds over event traces, and
shared-memory interaction is modelled as an interleaving of atomic steps.

Sources embedded here:
 - `src/coco_classes.py`    : `COCO_CLASSES`, `get_class_name`
 - `src/yolo_detector.py`   : class `YOLODetector` (Strategy A, raw-logits decode)
 - `src/yolo_detector_nmsTrue.py` : class `YOLODetectorNMS` (Strategy B, pre-suppressed)
 - `src/webcam_yolo_detection.py` and `src/learning/webcam_yolo_detection.py` :
   `detection_loop`, `on_draw` snapshotting, `on_bus_message`
-/

/-- The 80 COCO class names, in order, from `coco_classes.py` (`COCO_CLASSES`). -/
def COCO_CLASSES : List String :=
  ["person", "bicycle", "car", "motorcycle", "airplane", "bus", "train", "truck",
   "boat", "traffic light", "fire hydrant", "stop sign", "parking meter", "bench",
   "bird", "cat", "dog", "horse", "sheep", "cow", "elephant", "bear", "zebra",
   "giraffe", "backpack", "umbrella", "handbag", "tie", "suitcase", "frisbee",
   "skis", "snowboard", "sports ball", "kite", "baseball bat", "baseball glove",
   "skateboard", "surfboard", "tennis racket", "bottle", "wine glass", "cup",
   "fork", "knife", "spoon", "bowl", "banana", "apple", "sandwich", "orange",
   "broccoli", "carrot", "hot dog", "pizza", "donut", "cake", "chair", "couch",
   "potted plant", "bed", "dining table", "toilet", "tv", "laptop", "mouse",
   "remote", "keyboard", "cell phone", "microwave", "oven", "toaster", "sink",
   "refrigerator", "book", "clock", "vase", "scissors", "teddy bear",
   "hair drier", "toothbrush"]

/-- `get_class_name` from `coco_classes.py`: the class name for a class id,
`"unknown"` when the id is out of the valid `[0, len(COCO_CLASSES))` range. -/
def get_class_name (class_id : ℤ) : String :=
  if 0 ≤ class_id ∧ class_id < (COCO_CLASSES.length : ℤ) then
    COCO_CLASSES.getD class_id.toNat "unknown"
  else "unknown"

/-- Python `int(q)` on a float/rational value: truncation toward zero. -/
def truncQ (q : ℚ) : ℤ := if 0 ≤ q then ⌊q⌋ else ⌈q⌉

/-- A detection dictionary as built by both detectors:
`{x, y, w, h, class_id, class_name, confidence}`. -/
structure Detection where
  x : ℚ
  y : ℚ
  w : ℚ
  h : ℚ
  class_id : ℤ
  class_name : String
  confidence : ℚ
deriving Repr, DecidableEq

/-- A scaled detection dictionary as built in `detection_loop`
(coordinates truncated to Python `int`s). -/
structure ScaledDetection where
  x : ℤ
  y : ℤ
  w : ℤ
  h : ℤ
  class_id : ℤ
  class_name : String
  confidence : ℚ
deriving Repr, DecidableEq

namespace YOLODetectorNMS

/-- One row of the `[N, 6]` raw output tensor of the NMS-baked model:
`[x1, y1, x2, y2, confidence, class_id]` (`yolo_detector_nmsTrue.py`). -/
structure Pred6 where
  x1 : ℚ
  y1 : ℚ
  x2 : ℚ
  y2 : ℚ
  confidence : ℚ
  class_id : ℚ
deriving Repr, DecidableEq

/-- The detection dictionary `YOLODetectorNMS.postprocess` builds for a
surviving candidate (lines 207-221 of `yolo_detector_nmsTrue.py`). -/
def mkDetection (p : Pred6) : Detection :=
  { x := p.x1
    y := p.y1
    w := p.x2 - p.x1
    h := p.y2 - p.y1
    class_id := truncQ p.class_id
    class_name := get_class_name (truncQ p.class_id)
    confidence := p.confidence }

/-- `YOLODetectorNMS.postprocess` (Strategy B), lines 181-225 of
`yolo_detector_nmsTrue.py`: iterate over the candidates, skip a candidate when
`confidence < conf_threshold`, when `int(class_id)` is outside
`[0, len(COCO_CLASSES))`, or when `x2 - x1 ≤ 0` or `y2 - y1 ≤ 0`; append a
detection dictionary for every survivor. -/
def postprocess (conf_threshold : ℚ) : List Pred6 → List Detection
  | [] => []
  | p :: rest =>
    if p.confidence < conf_threshold then postprocess conf_threshold rest
    else if truncQ p.class_id < 0 ∨ (COCO_CLASSES.length : ℤ) ≤ truncQ p.class_id then
      postprocess conf_threshold rest
    else if p.x2 - p.x1 ≤ 0 ∨ p.y2 - p.y1 ≤ 0 then postprocess conf_threshold rest
    else mkDetection p :: postprocess conf_threshold rest

/-- The positive form of the three filters of `postprocess`: a candidate is
kept when its confidence reaches the threshold, its truncated class id is in
the valid range, and its width and height are positive. -/
def keeps (conf_threshold : ℚ) (p : Pred6) : Prop :=
  conf_threshold ≤ p.confidence ∧
  0 ≤ truncQ p.class_id ∧ truncQ p.class_id < (COCO_CLASSES.length : ℤ) ∧
  0 < p.x2 - p.x1 ∧ 0 < p.y2 - p.y1

instance keepsDecidable (conf_threshold : ℚ) (p : Pred6) :
    Decidable (keeps conf_threshold p) := by
  unfold keeps; infer_instance

end YOLODetectorNMS

namespace YOLODetector

/-- One row of the transposed `[8400, 84]` raw output tensor of the plain model
(`yolo_detector.py`): a center-format box `(x, y, w, h)` followed by the
per-class score slice. -/
structure Candidate where
  x : ℚ
  y : ℚ
  w : ℚ
  h : ℚ
  scores : List ℚ
deriving Repr, DecidableEq

/-- `np.max(scores)`: the greatest element of a score row (`0` on an empty row,
which cannot occur for a real `[*, 84]` tensor). -/
def npMax : List ℚ → ℚ
  | [] => 0
  | a :: as => as.foldl max a

/-- Helper for `npArgmax`: scan the remaining scores, keeping the index of the
first occurrence of the maximum seen so far. -/
def argmaxAux : List ℚ → ℕ → ℕ → ℚ → ℕ
  | [], _, best, _ => best
  | a :: as, i, best, bestVal =>
    if bestVal < a then argmaxAux as (i + 1) i a
    else argmaxAux as (i + 1) best bestVal

/-- `np.argmax(scores)`: index of the first occurrence of the greatest score
(`0` on an empty row). -/
def npArgmax : List ℚ → ℕ
  | [] => 0
  | a :: as => argmaxAux as 1 0 a

/-- Step 5 of `YOLODetector.postprocess` (lines 185-189 of `yolo_detector.py`):
`mask = confidences > self.conf_threshold`, keeping exactly the candidates whose
top class score is strictly above the threshold. -/
def filteredCandidates (conf_threshold : ℚ) (preds : List Candidate) : List Candidate :=
  preds.filter fun p => conf_threshold < npMax p.scores

/-- The detection dictionary `YOLODetector.postprocess` builds for a kept index
(lines 203-217 of `yolo_detector.py`): the center-format box coordinates are
emitted directly as `x, y, w, h`. -/
def mkDetection (p : Candidate) : Detection :=
  { x := p.x
    y := p.y
    w := p.w
    h := p.h
    class_id := (npArgmax p.scores : ℤ)
    class_name := get_class_name (npArgmax p.scores : ℤ)
    confidence := npMax p.scores }

/-- Steps 5-6 of `YOLODetector.postprocess`: the detections built from the
confidence-filtered candidates at the indices kept by NMS. `keep` abstracts the
index list returned by `cv2.dnn.NMSBoxes` (an external collaborator); the
theorems below hold for every such index list. -/
def postprocessKept (conf_threshold : ℚ) (preds : List Candidate) (keep : List ℕ) :
    List Detection :=
  let filtered := filteredCandidates conf_threshold preds
  keep.filterMap fun idx => (filtered.get? idx).map mkDetection

/-- A center-format box `[x_center, y_center, width, height]`. -/
structure BoxXYWH where
  x : ℚ
  y : ℚ
  w : ℚ
  h : ℚ
deriving Repr, DecidableEq

/-- A corner-format box `[x1, y1, x2, y2]`. -/
structure BoxXYXY where
  x1 : ℚ
  y1 : ℚ
  x2 : ℚ
  y2 : ℚ
deriving Repr, DecidableEq

/-- `YOLODetector.xywh_to_xyxy` (lines 222-240 of `yolo_detector.py`):
convert a box from center format to corner format. -/
def xywh_to_xyxy (b : BoxXYWH) : BoxXYXY :=
  { x1 := b.x - b.w / 2
    y1 := b.y - b.h / 2
    x2 := b.x + b.w / 2
    y2 := b.y + b.h / 2 }

/-- The corner-to-top-left readback used by Strategy B
(lines 200-210 of `yolo_detector_nmsTrue.py`): `x = x1`, `y = y1`,
`w = x2 - x1`, `h = y2 - y1`. -/
def xyxy_to_tlwh (c : BoxXYXY) : BoxXYWH :=
  { x := c.x1
    y := c.y1
    w := c.x2 - c.x1
    h := c.y2 - c.y1 }

end YOLODetector

namespace Preprocess

/-- An input frame for the detection branch: a `(H, W, 3)` uint8 pixel grid,
indexed as `frame h w channel`. -/
def Frame : Type := ℕ → ℕ → Fin 3 → ℕ

/-- The content `preprocess` stores in `self.input_array[0]`
(lines 144-146 of `yolo_detector.py`, lines 151-153 of
`yolo_detector_nmsTrue.py`): `input_array[0, c, :, :] = frame[:, :, c] / 255.0`,
indexed as `plane channel h w`. -/
def normalizeFrame (frame : Frame) : Fin 3 → ℕ → ℕ → ℚ :=
  fun c h w => (frame h w c : ℚ) / 255

/-- A heap of numpy arrays, addressed by object identity. Only the planar
`(3, H, W)` content of each array matters here. -/
structure Heap where
  arrays : ℕ → Fin 3 → ℕ → ℕ → ℚ

/-- The detector's identity-relevant state: the address of the single
`input_array` preallocated in `__init__`
(line 58 of `yolo_detector.py`, line 59 of `yolo_detector_nmsTrue.py`). -/
structure DetectorState where
  input_array : ℕ

/-- `preprocess` of both detector classes: overwrite the preallocated
`input_array` in place with the normalized planar frame and return that same
array (its address). No new array is allocated. -/
def preprocess (d : DetectorState) (σ : Heap) (frame : Frame) : Heap × ℕ :=
  (⟨fun a => if a = d.input_array then normalizeFrame frame else σ.arrays a⟩,
   d.input_array)

end Preprocess

namespace DetectionLoop

/-- Scaling of one detection dictionary in `detection_loop`
(lines 274-282 of `webcam_yolo_detection.py`, lines 163-171 of
`learning/webcam_yolo_detection.py`): each coordinate is multiplied by the
per-axis scale factor and truncated by Python `int()`. -/
def scaleDetection (scale_x scale_y : ℚ) (det : Detection) : ScaledDetection :=
  { x := truncQ (det.x * scale_x)
    y := truncQ (det.y * scale_y)
    w := truncQ (det.w * scale_x)
    h := truncQ (det.h * scale_y)
    class_id := det.class_id
    class_name := det.class_name
    confidence := det.confidence }

/-- What one iteration of the `while running` loop encounters, abstracting the
appsink and the detector: no sample, a failed buffer map, a frame whose
detection succeeds with the given detections, or a frame whose processing
raises an exception (e.g. a malformed buffer). -/
inductive FrameEvent where
  | noSample : FrameEvent
  | mapFailed : FrameEvent
  | good : List Detection → FrameEvent
  | raisesError : FrameEvent
deriving Repr, DecidableEq

/-- One iteration of the `detection_loop` body
(lines 233-297 of `webcam_yolo_detection.py`), acting on the shared
`latest_detections`: `continue` on a missing sample or failed map, publish the
scaled detections on success, and — because the whole body is inside
`try/except` — leave the state unchanged and continue on an exception. -/
def loopStep (scale_x scale_y : ℚ) (latest : List ScaledDetection) :
    FrameEvent → List ScaledDetection
  | FrameEvent.noSample => latest
  | FrameEvent.mapFailed => latest
  | FrameEvent.good dets => dets.map (scaleDetection scale_x scale_y)
  | FrameEvent.raisesError => latest

/-- The `detection_loop` run over a finite feed of frame events, starting from
the initial empty `latest_detections`; the fold is total, so no event — in
particular no exception — terminates the loop early. -/
def run (scale_x scale_y : ℚ) (feed : List FrameEvent) : List ScaledDetection :=
  feed.foldl (loopStep scale_x scale_y) []

end DetectionLoop

namespace ResultBoard

/-- An atomic action on the shared `latest_detections` variable: the writer's
single reference assignment `latest_detections = scaled_detections`
(line 286 of `webcam_yolo_detection.py`) or the reader's single reference read
`detections = latest_detections` (line 163, in `on_draw`). Under the Python
interpreter each is one indivisible store/load of a list reference. -/
inductive Op where
  | publish : List ScaledDetection → Op
  | snapshot : Op
deriving Repr, DecidableEq

/-- The lists published by the writer within a trace of operations. -/
def publishedLists : List Op → List (List ScaledDetection)
  | [] => []
  | Op.publish l :: rest => l :: publishedLists rest
  | Op.snapshot :: rest => publishedLists rest

/-- Execute a trace of interleaved publishes and snapshots starting from cell
content `cell`, returning the list observed by each snapshot in order. -/
def observations (cell : List ScaledDetection) : List Op → List (List ScaledDetection)
  | [] => []
  | Op.publish l :: rest => observations l rest
  | Op.snapshot :: rest => cell :: observations cell rest

/-- A full run from the initial empty `latest_detections`. -/
def runTrace (ops : List Op) : List (List ScaledDetection) :=
  observations [] ops

end ResultBoard

namespace BufferLifetime

/-- Buffer-related effects inside one `detection_loop` iteration:
mapping the Gst buffer, the `detect` call reading the mapped frame memory, and
unmapping the buffer. -/
inductive Event where
  | mapBuffer : Event
  | detectReads : Event
  | unmapBuffer : Event
deriving Repr, DecidableEq

/-- Effect order in the loop body of `webcam_yolo_detection.py`:
`buffer.map` (line 244), `buffer.unmap` (line 257), then
`yolo_detector.detect(frame)` (line 268) reading through the numpy view of the
already-unmapped memory. -/
def mainLoopTrace : List Event :=
  [Event.mapBuffer, Event.unmapBuffer, Event.detectReads]

/-- Effect order in the loop body of `learning/webcam_yolo_detection.py`:
`buffer.map` (line 143), `yolo_detector.detect(frame)` (line 155, with the
comment "Run detection BEFORE unmapping to keep memory valid"), then
`buffer.unmap` (line 158). -/
def learningLoopTrace : List Event :=
  [Event.mapBuffer, Event.detectReads, Event.unmapBuffer]

/-- Whether every `detect` read in the trace happens while the buffer is
mapped, tracking the mapped flag through the trace. -/
def readsWhileMapped (mapped : Bool) : List Event → Bool
  | [] => true
  | Event.mapBuffer :: rest => readsWhileMapped true rest
  | Event.unmapBuffer :: rest => readsWhileMapped false rest
  | Event.detectReads :: rest => mapped && readsWhileMapped mapped rest

end BufferLifetime

namespace Supervisor

/-- The GStreamer bus message kinds handled by `on_bus_message`. -/
inductive BusMessage where
  | error : BusMessage
  | warning : BusMessage
  | stateChanged : BusMessage
  | eos : BusMessage
deriving Repr, DecidableEq

/-- The supervisor-visible shared state: the detection loop's `running` flag
and whether the GLib main loop has been asked to quit. -/
structure AppState where
  running : Bool
  mainLoopQuit : Bool
deriving Repr, DecidableEq

/-- `on_bus_message` of `webcam_yolo_detection.py` (lines 105-132): on ERROR and
EOS it only calls `main_loop.quit()`; the `running` flag is never touched
(it is cleared only on the KeyboardInterrupt path of `main`). -/
def on_bus_message (s : AppState) : BusMessage → AppState
  | BusMessage.error => { s with mainLoopQuit := true }
  | BusMessage.eos => { s with mainLoopQuit := true }
  | BusMessage.warning => s
  | BusMessage.stateChanged => s

/-- `on_bus_message` of `learning/webcam_yolo_detection.py` (lines 49-79): on
ERROR and EOS it sets `running = False` and then calls `main_loop.quit()`. -/
def on_bus_message_learning (s : AppState) : BusMessage → AppState
  | BusMessage.error => { running := false, mainLoopQuit := true }
  | BusMessage.eos => { running := false, mainLoopQuit := true }
  | BusMessage.warning => s
  | BusMessage.stateChanged => s

end Supervisor

/-! ## Concrete inputs used by the testable properties of §8 -/

/-- The Strategy B test candidate `[10, 10, 50, 50, 0.9, 2]` of §8. -/
def predC1 : YOLODetectorNMS.Pred6 := ⟨10, 10, 50, 50, 9/10, 2⟩

/-- The detection Strategy B yields for `predC1` at threshold 0.5
(class 2 is `"car"`). -/
def detC1 : Detection := ⟨10, 10, 40, 40, 2, "car", 9/10⟩

/-- A Strategy B candidate carrying an out-of-range raw confidence 1.5. -/
def predOverConf : YOLODetectorNMS.Pred6 := ⟨10, 10, 50, 50, 3/2, 2⟩

/-- A Strategy A candidate whose 80 class scores are all exactly 0.5, so its
top class score equals a 0.5 confidence threshold. -/
def candHalf : YOLODetector.Candidate := ⟨0, 0, 10, 10, List.replicate 80 (1/2)⟩

/-- The §8 scaling example detection (x=100, y=50, w=20, h=10). -/
def detC4 : Detection := ⟨100, 50, 20, 10, 0, "person", 9/10⟩

/-- The box (x=10, y=10, w=4, h=4) used to exercise the coordinate round trip. -/
def boxC9 : YOLODetector.BoxXYWH := ⟨10, 10, 4, 4⟩

/-- A concrete scaled detection used to exercise the ResultBoard trace model. -/
def sdetSample : ScaledDetection := ⟨15, 7, 30, 11, 2, "car", 9/10⟩

/-! ## Helper lemmas -/

theorem truncQ_intCast (k : ℤ) : truncQ (k : ℚ) = k := by
  unfold truncQ
  split <;> simp

theorem abs_truncQ_sub_lt (q : ℚ) : |(truncQ q : ℚ) - q| < 1 := by
  unfold truncQ
  rw [abs_lt]
  rcases le_or_lt 0 q with h | h
  · rw [if_pos h]
    constructor
    · linarith [Int.sub_one_lt_floor q]
    · linarith [Int.floor_le q]
  · rw [if_neg (not_le.mpr h)]
    constructor
    · linarith [Int.le_ceil q]
    · linarith [Int.ceil_lt_add_one q]

namespace YOLODetectorNMS

theorem postprocess_cons (t : ℚ) (p : Pred6) (rest : List Pred6) :
    postprocess t (p :: rest) =
      if keeps t p then mkDetection p :: postprocess t rest
      else postprocess t rest := by
  show (if p.confidence < t then postprocess t rest
    else if truncQ p.class_id < 0 ∨ (COCO_CLASSES.length : ℤ) ≤ truncQ p.class_id then
      postprocess t rest
    else if p.x2 - p.x1 ≤ 0 ∨ p.y2 - p.y1 ≤ 0 then postprocess t rest
    else mkDetection p :: postprocess t rest) = _
  by_cases h1 : p.confidence < t
  · rw [if_pos h1, if_neg fun hk => absurd hk.1 (not_le.mpr h1)]
  · rw [if_neg h1]
    by_cases h2 : truncQ p.class_id < 0 ∨ (COCO_CLASSES.length : ℤ) ≤ truncQ p.class_id
    · rw [if_pos h2, if_neg]
      rintro ⟨-, hk2, hk3, -⟩
      rcases h2 with h2 | h2
      · exact absurd hk2 (not_le.mpr h2)
      · exact absurd hk3 (not_lt.mpr h2)
    · rw [if_neg h2]
      by_cases h3 : p.x2 - p.x1 ≤ 0 ∨ p.y2 - p.y1 ≤ 0
      · rw [if_pos h3, if_neg]
        rintro ⟨-, -, -, hk4, hk5⟩
        rcases h3 with h3 | h3
        · exact absurd hk4 (not_lt.mpr h3)
        · exact absurd hk5 (not_lt.mpr h3)
      · rw [if_neg h3, if_pos]
        push_neg at h1 h2 h3
        exact ⟨h1, h2.1, h2.2, h3.1, h3.2⟩

theorem mem_postprocess {t : ℚ} {preds : List Pred6} {d : Detection} :
    d ∈ postprocess t preds ↔ ∃ p, p ∈ preds ∧ keeps t p ∧ d = mkDetection p := by
  induction preds with
  | nil => simp [postprocess]
  | cons p rest ih =>
    rw [postprocess_cons]
    by_cases hp : keeps t p
    · simp only [if_pos hp, List.mem_cons, ih]
      constructor
      · rintro (rfl | ⟨q, hq, hkq, rfl⟩)
        · exact ⟨p, Or.inl rfl, hp, rfl⟩
        · exact ⟨q, Or.inr hq, hkq, rfl⟩
      · rintro ⟨q, hq | hq, hkq, rfl⟩
        · exact Or.inl (by rw [hq])
        · exact Or.inr ⟨q, hq, hkq, rfl⟩
    · simp only [if_neg hp, ih, List.mem_cons]
      constructor
      · rintro ⟨q, hq, hkq, rfl⟩
        exact ⟨q, Or.inr hq, hkq, rfl⟩
      · rintro ⟨q, hq | hq, hkq, rfl⟩
        · exact absurd hkq (hq ▸ hp)
        · exact ⟨q, hq, hkq, rfl⟩

end YOLODetectorNMS

namespace YOLODetector

theorem foldl_max_mem (as : List ℚ) (a : ℚ) : as.foldl max a ∈ a :: as := by
  induction as generalizing a with
  | nil => simp
  | cons x xs ih =>
    rw [List.foldl_cons]
    rcases List.mem_cons.mp (ih (max a x)) with h' | h'
    · rw [h']
      rcases max_choice a x with hm | hm <;> rw [hm]
      · exact List.mem_cons_self _ _
      · exact List.mem_cons_of_mem _ (List.mem_cons_self _ _)
    · exact List.mem_cons_of_mem _ (List.mem_cons_of_mem _ h')

theorem npMax_mem {l : List ℚ} (h : l ≠ []) : npMax l ∈ l := by
  match l with
  | a :: as => exact foldl_max_mem as a

theorem argmaxAux_lt (as : List ℚ) (i best : ℕ) (bestVal : ℚ) (h : best < i) :
    argmaxAux as i best bestVal < i + as.length := by
  induction as generalizing i best bestVal with
  | nil => simpa [argmaxAux] using h
  | cons a as ih =>
    rw [argmaxAux]
    split
    · have := ih (i + 1) i a (Nat.lt_succ_self i)
      rw [List.length_cons]
      omega
    · have := ih (i + 1) best bestVal (Nat.lt_succ_of_lt h)
      rw [List.length_cons]
      omega

theorem npArgmax_lt_length {l : List ℚ} (h : l ≠ []) : npArgmax l < l.length := by
  match l with
  | a :: as =>
    have := argmaxAux_lt as 1 0 a Nat.one_pos
    simpa [npArgmax, Nat.add_comm] using this

theorem mem_filteredCandidates {t : ℚ} {preds : List Candidate} {p : Candidate} :
    p ∈ filteredCandidates t preds ↔ p ∈ preds ∧ t < npMax p.scores := by
  unfold filteredCandidates
  rw [List.mem_filter, decide_eq_true_eq]

theorem mem_postprocessKept {t : ℚ} {preds : List Candidate} {keep : List ℕ}
    {d : Detection} (h : d ∈ postprocessKept t preds keep) :
    ∃ p, p ∈ filteredCandidates t preds ∧ d = mkDetection p := by
  rcases List.mem_filterMap.mp h with ⟨idx, -, hmap⟩
  rcases Option.map_eq_some'.mp hmap with ⟨p, hget, hd⟩
  exact ⟨p, List.get?_mem hget, hd.symm⟩

theorem foldl_max_replicate (n : ℕ) (a : ℚ) : (List.replicate n a).foldl max a = a := by
  induction n with
  | zero => rfl
  | succ n ih => rw [List.replicate_succ, List.foldl_cons, max_self]; exact ih

theorem npMax_candHalf : npMax candHalf.scores = 1/2 := by
  show npMax (List.replicate 80 (1/2)) = 1/2
  rw [List.replicate_succ, npMax]
  exact foldl_max_replicate 79 (1/2)

end YOLODetector

namespace ResultBoard

theorem mem_observations {ops : List Op} {cell o : List ScaledDetection}
    (h : o ∈ observations cell ops) : o = cell ∨ o ∈ publishedLists ops := by
  induction ops generalizing cell with
  | nil => simp [observations] at h
  | cons op rest ih =>
    cases op with
    | publish l =>
      rcases ih (h := h) with rfl | hmem
      · exact Or.inr (List.mem_cons_self _ _)
      · exact Or.inr (List.mem_cons_of_mem _ hmem)
    | snapshot =>
      rcases List.mem_cons.mp h with rfl | h'
      · exact Or.inl rfl
      · exact ih h'

end ResultBoard

theorem postprocess_predC1_eval :
    YOLODetectorNMS.postprocess (1/2) [predC1] = [detC1] := by
  norm_num [YOLODetectorNMS.postprocess, YOLODetectorNMS.mkDetection, truncQ,
    get_class_name, COCO_CLASSES, predC1, detC1]
  rfl

/-! ## Claims -/

/-- Claim C1: Strategy B postprocess on `[[10, 10, 50, 50, 0.9, 2]]` with
confidence threshold 0.5 returns exactly one detection with x=10, y=10, w=40,
h=40, class_id=2, confidence=0.9; with threshold 0.95 it returns the empty
list; and in general a candidate (with an integral class id, as the model
emits) is emitted if and only if its confidence passes the threshold, its
class id lies in `[0, len(COCO_CLASSES))`, and `x2 - x1 > 0` and
`y2 - y1 > 0`. -/
theorem C1_strategyB_filter :
    YOLODetectorNMS.postprocess (1/2) [predC1] = [detC1] ∧
    YOLODetectorNMS.postprocess (95/100) [predC1] = [] ∧
    (∀ (t : ℚ) (p : YOLODetectorNMS.Pred6) (rest : List YOLODetectorNMS.Pred6)
       (k : ℤ), p.class_id = (k : ℚ) →
       YOLODetectorNMS.postprocess t (p :: rest) =
         if t ≤ p.confidence ∧ 0 ≤ p.class_id ∧
             p.class_id < (COCO_CLASSES.length : ℚ) ∧
             0 < p.x2 - p.x1 ∧ 0 < p.y2 - p.y1
         then YOLODetectorNMS.mkDetection p :: YOLODetectorNMS.postprocess t rest
         else YOLODetectorNMS.postprocess t rest) := by
  refine ⟨postprocess_predC1_eval, ?_, ?_⟩
  · norm_num [YOLODetectorNMS.postprocess, predC1]
  · intro t p rest k hk
    have hcond : YOLODetectorNMS.keeps t p ↔
        (t ≤ p.confidence ∧ 0 ≤ p.class_id ∧
          p.class_id < (COCO_CLASSES.length : ℚ) ∧
          0 < p.x2 - p.x1 ∧ 0 < p.y2 - p.y1) := by
      unfold YOLODetectorNMS.keeps
      rw [hk, truncQ_intCast]
      constructor
      · rintro ⟨h1, h2, h3, h4, h5⟩
        exact ⟨h1, by exact_mod_cast h2, by exact_mod_cast h3, h4, h5⟩
      · rintro ⟨h1, h2, h3, h4, h5⟩
        exact ⟨h1, by exact_mod_cast h2, by exact_mod_cast h3, h4, h5⟩
    rw [YOLODetectorNMS.postprocess_cons]
    simp only [hcond]

/-- Witness for C1: the cons characterization applied to the §8 candidate at
threshold 0.5, with its class id 2 supplied as the integer witness. -/
theorem C1_strategyB_filter_witness :
    YOLODetectorNMS.postprocess (1/2) (predC1 :: []) =
      if (1/2 : ℚ) ≤ predC1.confidence ∧ 0 ≤ predC1.class_id ∧
          predC1.class_id < (COCO_CLASSES.length : ℚ) ∧
          0 < predC1.x2 - predC1.x1 ∧ 0 < predC1.y2 - predC1.y1
      then YOLODetectorNMS.mkDetection predC1 ::
        YOLODetectorNMS.postprocess (1/2) []
      else YOLODetectorNMS.postprocess (1/2) [] :=
  C1_strategyB_filter.2.2 (1/2) predC1 [] 2 (by norm_num [predC1])

/-- Claim C2 counterexample: at threshold 0.5, a Strategy A candidate whose
top class score is exactly 0.5 is not below the threshold, yet the confidence
filter (`confidences > self.conf_threshold`) discards it — so "discarded iff
top score below t" fails in the retain direction. -/
theorem C2_equal_score_discarded :
    ¬ YOLODetector.npMax candHalf.scores < 1/2 ∧
    YOLODetector.filteredCandidates (1/2) [candHalf] = [] := by
  constructor
  · rw [YOLODetector.npMax_candHalf]
    exact lt_irrefl _
  · unfold YOLODetector.filteredCandidates
    simp [YOLODetector.npMax_candHalf]

/-- Claim C2 (amended): every Detection returned by either decode strategy has
confidence ≥ t, and in Strategy A a candidate survives the confidence filter
if and only if its top class score is strictly above t — a candidate whose top
score equals t is discarded. -/
theorem C2_confidence_threshold :
    (∀ (t : ℚ) (preds : List YOLODetector.Candidate) (keep : List ℕ)
       (d : Detection), d ∈ YOLODetector.postprocessKept t preds keep →
       t ≤ d.confidence) ∧
    (∀ (t : ℚ) (preds : List YOLODetectorNMS.Pred6) (d : Detection),
       d ∈ YOLODetectorNMS.postprocess t preds → t ≤ d.confidence) ∧
    (∀ (t : ℚ) (preds : List YOLODetector.Candidate) (p : YOLODetector.Candidate),
       p ∈ YOLODetector.filteredCandidates t preds ↔
         p ∈ preds ∧ t < YOLODetector.npMax p.scores) := by
  refine ⟨?_, ?_, ?_⟩
  · intro t preds keep d hd
    rcases YOLODetector.mem_postprocessKept hd with ⟨p, hp, rfl⟩
    exact le_of_lt (YOLODetector.mem_filteredCandidates.mp hp).2
  · intro t preds d hd
    rcases YOLODetectorNMS.mem_postprocess.mp hd with ⟨p, -, hk, rfl⟩
    exact hk.1
  · intro t preds p
    exact YOLODetector.mem_filteredCandidates

/-- Witness for C2: the Strategy B bound applied to the concrete §8 run. -/
theorem C2_confidence_threshold_witness : (1/2 : ℚ) ≤ detC1.confidence :=
  C2_confidence_threshold.2.1 (1/2) [predC1] detC1
    (postprocess_predC1_eval ▸ List.mem_singleton.mpr rfl)

/-- Claim C3 counterexample: a raw Strategy B candidate carrying confidence
1.5 survives every filter and is emitted with confidence 1.5 > 1, violating
the `0 ≤ confidence ≤ 1` part of the Detection invariant for this raw
tensor. -/
theorem C3_overconfident_detection :
    (YOLODetectorNMS.postprocess (1/2) [predOverConf]).map Detection.confidence =
      [3/2] ∧ ¬ ((3/2 : ℚ) ≤ 1) := by
  constructor
  · norm_num [YOLODetectorNMS.postprocess, YOLODetectorNMS.mkDetection,
      predOverConf, truncQ, COCO_CLASSES]
  · norm_num

/-- Claim C3 (amended): for every raw tensor, every Strategy B detection has
width > 0, height > 0, class id in `[0, len(COCO_CLASSES))` and confidence ≥
the threshold, and its confidence lies in `[0, 1]` whenever all raw
confidences do; every Strategy A detection has class id in
`[0, len(COCO_CLASSES))` when each candidate carries `len(COCO_CLASSES)`
class scores, and confidence in `[0, 1]` when all raw scores lie in `[0, 1]`.
Neither strategy clamps a raw confidence outside `[0, 1]`, and Strategy A does
not check box positivity. -/
theorem C3_detection_invariant :
    (∀ (t : ℚ) (preds : List YOLODetectorNMS.Pred6) (d : Detection),
       d ∈ YOLODetectorNMS.postprocess t preds →
       0 < d.w ∧ 0 < d.h ∧ 0 ≤ d.class_id ∧
         d.class_id < (COCO_CLASSES.length : ℤ) ∧ t ≤ d.confidence) ∧
    (∀ (t : ℚ) (preds : List YOLODetectorNMS.Pred6) (d : Detection),
       (∀ p ∈ preds, 0 ≤ p.confidence ∧ p.confidence ≤ 1) →
       d ∈ YOLODetectorNMS.postprocess t preds →
       0 ≤ d.confidence ∧ d.confidence ≤ 1) ∧
    (∀ (t : ℚ) (preds : List YOLODetector.Candidate) (keep : List ℕ)
       (d : Detection),
       (∀ p ∈ preds, p.scores.length = COCO_CLASSES.length) →
       d ∈ YOLODetector.postprocessKept t preds keep →
       0 ≤ d.class_id ∧ d.class_id < (COCO_CLASSES.length : ℤ)) ∧
    (∀ (t : ℚ) (preds : List YOLODetector.Candidate) (keep : List ℕ)
       (d : Detection),
       (∀ p ∈ preds, ∀ s ∈ p.scores, 0 ≤ s ∧ s ≤ 1) →
       d ∈ YOLODetector.postprocessKept t preds keep →
       0 ≤ d.confidence ∧ d.confidence ≤ 1) := by
  refine ⟨?_, ?_, ?_, ?_⟩
  · intro t preds d hd
    rcases YOLODetectorNMS.mem_postprocess.mp hd with ⟨p, -, hk, rfl⟩
    exact ⟨hk.2.2.2.1, hk.2.2.2.2, hk.2.1, hk.2.2.1, hk.1⟩
  · intro t preds d hb hd
    rcases YOLODetectorNMS.mem_postprocess.mp hd with ⟨p, hp, -, rfl⟩
    exact hb p hp
  · intro t preds keep d hlen hd
    rcases YOLODetector.mem_postprocessKept hd with ⟨p, hp, rfl⟩
    have hpmem : p ∈ preds := (YOLODetector.mem_filteredCandidates.mp hp).1
    have hne : p.scores ≠ [] := by
      intro hnil
      have := hlen p hpmem
      rw [hnil] at this
      simp [COCO_CLASSES] at this
    have hlt : YOLODetector.npArgmax p.scores < p.scores.length :=
      YOLODetector.npArgmax_lt_length hne
    rw [hlen p hpmem] at hlt
    refine ⟨Int.ofNat_nonneg _, ?_⟩
    show (YOLODetector.npArgmax p.scores : ℤ) < (COCO_CLASSES.length : ℤ)
    exact_mod_cast hlt
  · intro t preds keep d hb hd
    rcases YOLODetector.mem_postprocessKept hd with ⟨p, hp, rfl⟩
    have hpmem : p ∈ preds := (YOLODetector.mem_filteredCandidates.mp hp).1
    rcases eq_or_ne p.scores [] with hnil | hne
    · show 0 ≤ YOLODetector.npMax p.scores ∧ YOLODetector.npMax p.scores ≤ 1
      rw [hnil]
      norm_num [YOLODetector.npMax]
    · exact hb p hpmem _ (YOLODetector.npMax_mem hne)

/-- Witness for C3: the Strategy B invariant bundle applied to the §8 run. -/
theorem C3_detection_invariant_witness :
    0 < detC1.w ∧ 0 < detC1.h ∧ 0 ≤ detC1.class_id ∧
      detC1.class_id < (COCO_CLASSES.length : ℤ) ∧ (1/2 : ℚ) ≤ detC1.confidence :=
  C3_detection_invariant.1 (1/2) [predC1] detC1
    (postprocess_predC1_eval ▸ List.mem_singleton.mpr rfl)

/-- Claim C4 counterexample: scaling the §8 example detection (x=100, in a
416-wide detection frame mapped to a 640-wide display) stores the Python
`int`-truncated 153, which is not equal to the exact affine value
100·(640/416) = 2000/13 ≈ 153.8. -/
theorem C4_truncation_breaks_exact_affine :
    ((DetectionLoop.scaleDetection (640/416) (480/416) detC4).x : ℚ) ≠
      detC4.x * (640/416) := by
  norm_num [DetectionLoop.scaleDetection, detC4, truncQ]

/-- Claim C4 (amended): each ScaledDetection coordinate is the per-axis affine
value `detect_coord * (display_dimension / detection_dimension)` truncated
toward zero by Python `int()` — applied independently to x/w with the x-axis
factor and to y/h with the y-axis factor — so it differs from the exact affine
value by less than 1; class id, class name and confidence are preserved. -/
theorem C4_scaling_truncated_affine :
    ∀ (sx sy : ℚ) (d : Detection),
      (DetectionLoop.scaleDetection sx sy d).x = truncQ (d.x * sx) ∧
      (DetectionLoop.scaleDetection sx sy d).y = truncQ (d.y * sy) ∧
      (DetectionLoop.scaleDetection sx sy d).w = truncQ (d.w * sx) ∧
      (DetectionLoop.scaleDetection sx sy d).h = truncQ (d.h * sy) ∧
      |((DetectionLoop.scaleDetection sx sy d).x : ℚ) - d.x * sx| < 1 ∧
      |((DetectionLoop.scaleDetection sx sy d).y : ℚ) - d.y * sy| < 1 ∧
      |((DetectionLoop.scaleDetection sx sy d).w : ℚ) - d.w * sx| < 1 ∧
      |((DetectionLoop.scaleDetection sx sy d).h : ℚ) - d.h * sy| < 1 ∧
      (DetectionLoop.scaleDetection sx sy d).class_id = d.class_id ∧
      (DetectionLoop.scaleDetection sx sy d).class_name = d.class_name ∧
      (DetectionLoop.scaleDetection sx sy d).confidence = d.confidence := by
  intro sx sy d
  exact ⟨rfl, rfl, rfl, rfl, abs_truncQ_sub_lt _, abs_truncQ_sub_lt _,
    abs_truncQ_sub_lt _, abs_truncQ_sub_lt _, rfl, rfl, rfl⟩

/-- Claim C5: a publish is the writer's single list-reference assignment and a
snapshot is the reader's single list-reference read; over every interleaving
of these atomic steps, each snapshot observes the initial empty list or
exactly one published list as a whole — never a torn mixture. -/
theorem C5_snapshot_never_torn :
    ∀ (ops : List ResultBoard.Op) (o : List ScaledDetection),
      o ∈ ResultBoard.runTrace ops →
      o = [] ∨ o ∈ ResultBoard.publishedLists ops := by
  intro ops o h
  exact ResultBoard.mem_observations h

/-- Witness for C5: a writer publish followed by a reader snapshot; the
snapshot observes precisely the published list. -/
theorem C5_snapshot_never_torn_witness :
    [sdetSample] = ([] : List ScaledDetection) ∨
      [sdetSample] ∈ ResultBoard.publishedLists
        [ResultBoard.Op.publish [sdetSample], ResultBoard.Op.snapshot] :=
  C5_snapshot_never_torn
    [ResultBoard.Op.publish [sdetSample], ResultBoard.Op.snapshot]
    [sdetSample]
    (by simp [ResultBoard.runTrace, ResultBoard.observations])

/-- Claim C6: the detection loop body is wrapped in a per-frame exception
handler, so a frame whose processing raises changes nothing — deleting the
raising event from a feed leaves the run's result unchanged — and a feed
ending in a successfully detected frame still publishes that frame's scaled
results whatever came before; the loop function is total, so no frame event
terminates it. -/
theorem C6_loop_survives_frame_errors :
    (∀ (sx sy : ℚ) (pre post : List DetectionLoop.FrameEvent),
       DetectionLoop.run sx sy (pre ++ DetectionLoop.FrameEvent.raisesError :: post) =
         DetectionLoop.run sx sy (pre ++ post)) ∧
    (∀ (sx sy : ℚ) (feed : List DetectionLoop.FrameEvent) (dets : List Detection),
       DetectionLoop.run sx sy (feed ++ [DetectionLoop.FrameEvent.good dets]) =
         dets.map (DetectionLoop.scaleDetection sx sy)) := by
  constructor
  · intro sx sy pre post
    unfold DetectionLoop.run
    rw [List.foldl_append, List.foldl_append, List.foldl_cons]
    rfl
  · intro sx sy feed dets
    unfold DetectionLoop.run
    rw [List.foldl_append, List.foldl_cons, List.foldl_nil]
    rfl

/-- Claim C7 (code bug): in the loop body of `webcam_yolo_detection.py` the
buffer is unmapped (line 257) before `detect` reads the frame view (line 268),
so the detect read does not happen while the buffer is mapped; the learning
variant's body keeps the buffer mapped across the whole detect call. -/
theorem C7_main_loop_reads_after_unmap :
    BufferLifetime.readsWhileMapped false BufferLifetime.mainLoopTrace = false ∧
    BufferLifetime.readsWhileMapped false BufferLifetime.learningLoopTrace = true := by
  exact ⟨rfl, rfl⟩

/-- Claim C8 (code bug): on a fatal ERROR or EOS bus message, the main
variant's `on_bus_message` leaves the detection loop's `running` flag set (it
only quits the GLib main loop), so the loop stays in the Running state; the
learning variant clears `running` as the claim requires. -/
theorem C8_fatal_fault_leaves_running :
    (Supervisor.on_bus_message ⟨true, false⟩ Supervisor.BusMessage.error).running = true ∧
    (Supervisor.on_bus_message ⟨true, false⟩ Supervisor.BusMessage.eos).running = true ∧
    (Supervisor.on_bus_message_learning ⟨true, false⟩
        Supervisor.BusMessage.error).running = false ∧
    (Supervisor.on_bus_message_learning ⟨true, false⟩
        Supervisor.BusMessage.eos).running = false := by
  exact ⟨rfl, rfl, rfl, rfl⟩

/-- Claim C9 counterexample: the §4.2 round trip — `xywh_to_xyxy` followed by
the corner-to-top-left readback `x = x1, y = y1, w = x2 - x1, h = y2 - y1` —
maps the box (10, 10, 4, 4) to (8, 8, 4, 4), which differs from the original
x and y by 2, far beyond any floating-point tolerance. -/
theorem C9_roundtrip_shifts_center :
    YOLODetector.xyxy_to_tlwh (YOLODetector.xywh_to_xyxy boxC9) =
      (⟨8, 8, 4, 4⟩ : YOLODetector.BoxXYWH) ∧
    (⟨8, 8, 4, 4⟩ : YOLODetector.BoxXYWH) ≠ boxC9 := by
  constructor
  · simp only [boxC9, YOLODetector.xywh_to_xyxy, YOLODetector.xyxy_to_tlwh,
      YOLODetector.BoxXYWH.mk.injEq]
    norm_num
  · simp only [boxC9, ne_eq, YOLODetector.BoxXYWH.mk.injEq]
    norm_num

/-- Claim C9 (amended): the round trip through the two §4.2 conversions
reproduces w and h exactly but anchors the box at its top-left corner,
returning x − w/2 and y − h/2 instead of the original center x and y; the
original center is recovered exactly by `x1 + (x2 − x1)/2` and
`y1 + (y2 − y1)/2`. -/
theorem C9_roundtrip_properties :
    ∀ b : YOLODetector.BoxXYWH,
      (YOLODetector.xyxy_to_tlwh (YOLODetector.xywh_to_xyxy b)).w = b.w ∧
      (YOLODetector.xyxy_to_tlwh (YOLODetector.xywh_to_xyxy b)).h = b.h ∧
      (YOLODetector.xyxy_to_tlwh (YOLODetector.xywh_to_xyxy b)).x = b.x - b.w / 2 ∧
      (YOLODetector.xyxy_to_tlwh (YOLODetector.xywh_to_xyxy b)).y = b.y - b.h / 2 ∧
      (YOLODetector.xywh_to_xyxy b).x1 +
        ((YOLODetector.xywh_to_xyxy b).x2 - (YOLODetector.xywh_to_xyxy b).x1) / 2 =
        b.x ∧
      (YOLODetector.xywh_to_xyxy b).y1 +
        ((YOLODetector.xywh_to_xyxy b).y2 - (YOLODetector.xywh_to_xyxy b).y1) / 2 =
        b.y := by
  intro b
  unfold YOLODetector.xywh_to_xyxy YOLODetector.xyxy_to_tlwh
  refine ⟨by ring, by ring, rfl, rfl, by ring, by ring⟩

/-- Claim C10: preprocess always writes into and returns the one input array
preallocated at construction: two successive preprocess calls return the same
array address, and after the second call the content read through the first
call's returned address is the second frame's normalization — the earlier
result has been overwritten. -/
theorem C10_preprocess_reuses_buffer :
    ∀ (d : Preprocess.DetectorState) (σ : Preprocess.Heap)
      (f1 f2 : Preprocess.Frame),
      (Preprocess.preprocess d σ f1).2 = d.input_array ∧
      (Preprocess.preprocess d (Preprocess.preprocess d σ f1).1 f2).2 =
        (Preprocess.preprocess d σ f1).2 ∧
      (Preprocess.preprocess d (Preprocess.preprocess d σ f1).1 f2).1.arrays
          (Preprocess.preprocess d σ f1).2 = Preprocess.normalizeFrame f2 := by
  intro d σ f1 f2
  refine ⟨rfl, rfl, ?_⟩
  simp [Preprocess.preprocess]
